import Mathlib

/-!
Shallow embedding of the git-cai-cli commit-message workflow
(`src/git_cai_cli/core`: `config.py`, `validate.py`, `languages.py`,
`llm.py`, `gitutils.py`, `squash.py`) together with theorems about the
frozen specification claims.

Conventions used by the embedding:
* YAML values are modelled by `CVal`; a Python `dict` is an association
  list looked up with `List.lookup` (first match, as in a dict with
  unique keys).
* Python `str.strip()` and `str.lower()` are modelled by `py_strip` and
  `py_lower` (ASCII-level, sufficient for the strings the code compares).
* Fallible Python code returns `Except`; an uncaught exception is an
  `Except.error` or an explicit flag on the outcome record.
-/

namespace GitCai

/-- Python string lowering, `str.lower()`, modelled characterwise. -/
def py_lower (s : String) : String :=
  String.mk (s.data.map Char.toLower)

/-- Python `str.strip()`: drop whitespace from both ends. -/
def py_strip (s : String) : String :=
  String.mk (((s.data.dropWhile Char.isWhitespace).reverse.dropWhile Char.isWhitespace).reverse)

/-- A scalar YAML value: string, number, boolean, or null. -/
inductive CLeaf where
  | str : String → CLeaf
  | num : Int → CLeaf
  | bool : Bool → CLeaf
  | null : CLeaf
deriving DecidableEq

/-- A YAML value as loaded by `yaml.safe_load`: a scalar or a nested
mapping.  The configuration files of this tool are two-level (provider
blocks hold scalars), and the validation code only ever inspects the key
names of a nested block, so one level of nesting is enough. -/
inductive CVal where
  | str : String → CVal
  | num : Int → CVal
  | bool : Bool → CVal
  | null : CVal
  | dict : List (String × CLeaf) → CVal
deriving DecidableEq

/-- A configuration mapping (a Python dict of YAML values). -/
def Config : Type := List (String × CVal)

/-- Python truthiness of an optional string (`if val:` on a value that is
either a string or `None`). -/
def truthy_str : Option String → Bool
  | some s => s ≠ ""
  | Option.none => false

/-! ### `validate.py` / `config.py`: configuration validation -/

/-- The `allowed_global_keys` set of `_validate_config_keys`
(`validate.py` lines 23-31). -/
def allowed_global_keys : List String :=
  ["language", "default", "style", "emoji", "load_tokens_from",
   "prompt_file", "squash_prompt_file"]

/-- The keys of `DEFAULT_CONFIG` (`config.py` lines 36-51), which is the
`reference` argument `load_config` passes to `_validate_config_keys`. -/
def default_config_keys : List String :=
  ["anthropic", "openai", "deepseek", "gemini", "groq", "xai", "mistral",
   "language", "default", "style", "emoji", "load_tokens_from",
   "prompt_file", "squash_prompt_file"]

/-- `allowed_provider_keys = set(reference.keys()) - allowed_global_keys`
(`validate.py` line 32). -/
def allowed_provider_keys : List String :=
  default_config_keys.filter (fun k => !allowed_global_keys.contains k)

/-- Whether one provider block passes the per-provider checks of
`_validate_config_keys` (lines 57-76): the value must be a mapping that
contains both a `model` and a `temperature` key. -/
def provider_block_ok : Option CVal → Bool
  | some (CVal.dict block) =>
      (block.map Prod.fst).contains "model" &&
      (block.map Prod.fst).contains "temperature"
  | _ => false

/-- The provider loop of `_validate_config_keys` (lines 57-76).  The
Python code iterates `sorted(provider_keys)`; the iteration order only
selects which error message is raised first, not whether the
configuration is accepted. -/
def check_provider_blocks (config : Config) : List String → Except String Unit
  | [] => Except.ok ()
  | p :: rest =>
    match List.lookup p config with
    | some (CVal.dict block) =>
        if !(block.map Prod.fst).contains "model" ||
           !(block.map Prod.fst).contains "temperature" then
          Except.error ("Provider " ++ p ++ " missing required keys")
        else check_provider_blocks config rest
    | _ => Except.error ("Provider " ++ p ++ " must be a mapping")

/-- `_validate_config_keys(config, DEFAULT_CONFIG)` (`validate.py`
lines 11-78).  It rejects unknown top-level keys, requires at least one
provider block, and requires every provider block to be a mapping with
`model` and `temperature`.  A `KeyError` raise is modelled as
`Except.error`. -/
def validate_config_keys (config : Config) : Except String Unit :=
  let config_keys := config.map Prod.fst
  let unknown_keys := config_keys.filter
    (fun k => !allowed_global_keys.contains k && !allowed_provider_keys.contains k)
  if unknown_keys ≠ [] then
    Except.error "Unknown config keys"
  else
    let provider_keys := config_keys.filter (fun k => allowed_provider_keys.contains k)
    if provider_keys = [] then
      Except.error "At least one provider configuration must be defined"
    else
      check_provider_blocks config provider_keys

/-- `_validate_language(config, allowed_languages)` (`validate.py`
lines 81-102).  A missing key gives `lang_code = None` but fails the
membership test `"language" in config`, so it falls through to the final
fallback and returns `"en"`; an explicit YAML null returns `"none"`. -/
def validate_language (config : Config) (allowed_languages : List String) : String :=
  match List.lookup "language" config with
  | Option.none => "en"
  | some lang_code =>
    if lang_code = CVal.null then "none"
    else
      match lang_code with
      | CVal.str s =>
          if py_lower (py_strip s) = "none" then "none"
          else if s = "" || !allowed_languages.contains s then "en"
          else s
      | _ => "en"

/-! ### `languages.py` and the language instruction of `llm.py` -/

/-- `LANGUAGE_MAP` (`languages.py` lines 4-20). -/
def LANGUAGE_MAP : List (String × String) :=
  [("en", "English"), ("it", "Italian"), ("fr", "French"), ("de", "German"),
   ("es", "Spanish"), ("zh", "Chinese"), ("ar", "Arabic"), ("hi", "Hindi"),
   ("bn", "Bengali"), ("pt", "Portuguese"), ("ru", "Russian"), ("ja", "Japanese"),
   ("ko", "Korean"), ("tr", "Turkish"), ("vi", "Vietnamese")]

/-- `CommitMessageGenerator._language_name` (`llm.py` lines 758-759):
`allowed_languages.get(lang_code, "English")`.  A non-string code is
never a key of the map, so it yields the default. -/
def language_name : CVal → String
  | CVal.str s => (List.lookup s LANGUAGE_MAP).getD "English"
  | _ => "English"

/-- Whether a config value is the string `"none"` up to
`strip().lower()`, the guard used by the instruction helpers. -/
def is_none_string : CVal → Bool
  | CVal.str s => py_lower (py_strip s) = "none"
  | _ => false

/-- `CommitMessageGenerator._language_instruction` (`llm.py`
lines 180-199), as a function of the generator configuration.
`self.config.get("language", "en")` defaults a missing key to `"en"`. -/
def language_instruction (config : Config) : String :=
  let lang_code := (List.lookup "language" config).getD (CVal.str "en")
  if lang_code = CVal.null then ""
  else if is_none_string lang_code then ""
  else "Write the commit message in " ++ language_name lang_code ++ "."

/-! ### `gitutils.py`: editor resolution and the edit-then-commit protocol -/

/-- The external inputs of `get_git_editor` (`gitutils.py` lines 77-96):
the stripped stdout of `git var GIT_EDITOR` when that command succeeds,
the three environment variables, and the `shutil.which` lookups of the
final fallback. -/
structure EditorEnv where
  git_var_editor : Option String
  env_git_editor : Option String
  env_visual : Option String
  env_editor : Option String
  which_vi : Option String
  which_nano : Option String
deriving DecidableEq

/-- The fallback half of `get_git_editor` (lines 90-96): the first truthy
value among the environment variables `GIT_EDITOR`, `VISUAL`, `EDITOR`,
then `shutil.which("vi") or shutil.which("nano") or "vi"`. -/
def get_git_editor_fallback (e : EditorEnv) : String :=
  if truthy_str e.env_git_editor then e.env_git_editor.getD ""
  else if truthy_str e.env_visual then e.env_visual.getD ""
  else if truthy_str e.env_editor then e.env_editor.getD ""
  else if truthy_str e.which_vi then e.which_vi.getD ""
  else if truthy_str e.which_nano then e.which_nano.getD ""
  else "vi"

/-- `get_git_editor` (`gitutils.py` lines 77-96): ask git for its editor
and use it when non-empty, otherwise use the environment fallbacks. -/
def get_git_editor (e : EditorEnv) : String :=
  match e.git_var_editor with
  | some s => if s ≠ "" then s else get_git_editor_fallback e
  | Option.none => get_git_editor_fallback e

/-- Python `rc or 1` on an exit code: `1` when the code is zero,
otherwise the code itself. -/
def or_one (n : Int) : Int := if n = 0 then 1 else n

/-- The external events of one run of `commit_with_edit_template`
(`gitutils.py` lines 111-157): whether `shutil.which` locates the first
`shlex` token of the resolved editor command, whether launching the
editor subprocess itself raises, the editor exit status, the bytes the
temp file holds after the editor ran, and the exit status of
`git commit -F`. -/
structure CommitEnv where
  editor_found : Bool
  editor_launch_raises : Bool
  editor_exit : Int
  edited_content : String
  git_commit_exit : Int
deriving DecidableEq

/-- Observable outcome of one run of `commit_with_edit_template`.
`result = Option.none` models an exception propagating to the caller;
`git_commit_calls` records every `git commit -F` invocation together
with the message content the named file held. -/
structure CommitOutcome where
  result : Option Int
  editor_ran : Bool
  git_commit_calls : List String
  temp_deleted : Bool
deriving DecidableEq

/-- `commit_with_edit_template(commit_message)` (`gitutils.py`
lines 111-157).  The SHA-256 of `sha256_of_file` is abstracted as the
`hash` parameter: the code only ever compares the two hash values for
equality.  The temp file initially holds `commit_message`; the
`try/finally` of lines 119-156 removes the temp file on every exit path,
including the exceptional one. -/
def commit_with_edit_template (hash : String → Nat) (commit_message : String)
    (env : CommitEnv) : CommitOutcome :=
  let original_hash := hash commit_message
  if !env.editor_found then
    { result := some 1, editor_ran := false, git_commit_calls := [], temp_deleted := true }
  else if env.editor_launch_raises then
    { result := Option.none, editor_ran := false, git_commit_calls := [], temp_deleted := true }
  else if env.editor_exit ≠ 0 then
    { result := some (or_one env.editor_exit), editor_ran := true,
      git_commit_calls := [], temp_deleted := true }
  else
    let new_hash := hash env.edited_content
    if new_hash = original_hash then
      { result := some 1, editor_ran := true, git_commit_calls := [], temp_deleted := true }
    else if env.git_commit_exit = 0 then
      { result := some 0, editor_ran := true,
        git_commit_calls := [env.edited_content], temp_deleted := true }
    else
      { result := some (or_one env.git_commit_exit), editor_ran := true,
        git_commit_calls := [env.edited_content], temp_deleted := true }

/-! ### `squash.py`: the squash orchestrator -/

/-- The external events of one run of `squash_branch` (`squash.py`
lines 62-181): the repository state, the loaded token, the staged diff
and the generated message with the events of the inner
`commit_with_edit_template` run, the branch base, the concatenated
commit log, the LLM summary, and the events of the user-review editor
session.  `final_read_raises` models `tf_name.read_text` raising (for
example a `UnicodeDecodeError` when the editor saved bytes that are not
valid UTF-8). -/
structure SquashEnv where
  in_git_repo : Bool
  staged_files : String
  unstaged_files : String
  token : Option String
  staged_diff : String
  generated_msg : String
  commit_env : CommitEnv
  merge_base : String
  commit_log : String
  summary : String
  editor_found : Bool
  editor_exit : Int
  edited_content : String
  final_read_raises : Bool
  has_upstream : Bool
deriving DecidableEq

/-- Observable outcome of one run of `squash_branch`.  `exception` marks
an exception escaping the function, `exited` marks the `sys.exit(1)` on
a missing token, `inner_commit_calls` records the `git commit -F`
invocations of the inner `commit_with_edit_template` run,
`reset_calls`/`commit_m_calls` record the destructive
`git reset --soft` and `git commit -m` invocations, and
`temp_created`/`temp_deleted` describe the review temp file. -/
structure SquashOutcome where
  exception : Bool
  exited : Bool
  summarizer_called : Bool
  editor_ran : Bool
  editor_ran_via_shell : Bool
  inner_commit_calls : List String
  reset_calls : List String
  commit_m_calls : List String
  temp_created : Bool
  temp_deleted : Bool
  upstream_warning : Bool
deriving DecidableEq

/-- The all-quiet outcome: nothing observable happened. -/
def SquashOutcome.base : SquashOutcome :=
  { exception := false, exited := false, summarizer_called := false,
    editor_ran := false, editor_ran_via_shell := false,
    inner_commit_calls := [], reset_calls := [], commit_m_calls := [],
    temp_created := false, temp_deleted := false, upstream_warning := false }

/-- Steps 2-5 of `squash_branch` (`squash.py` lines 110-181), reached
once the working tree is clean or its staged changes were committed.  An
empty commit log is the silent no-op of line 119.  Note lines 141-147:
when `shutil.which` cannot locate the editor executable the command is
run through the shell instead of failing; and note that the temp-file
`unlink` calls of lines 151, 159 and 163 are plain statements, not a
`finally` block, so an exception at the `read_text` of line 162 escapes
with the temp file still on disk. -/
def squash_after_tree (hash : String → Nat) (env : SquashEnv)
    (inner : List String) : SquashOutcome :=
  if env.commit_log = "" then
    { SquashOutcome.base with
        inner_commit_calls := inner }
  else
    let original_hash := hash env.summary
    let via_shell := !env.editor_found
    if env.editor_exit ≠ 0 then
      { SquashOutcome.base with
        summarizer_called := true, editor_ran := true,
        editor_ran_via_shell := via_shell, inner_commit_calls := inner,
        temp_created := true, temp_deleted := true }
    else if hash env.edited_content = original_hash then
      { SquashOutcome.base with
        summarizer_called := true, editor_ran := true,
        editor_ran_via_shell := via_shell, inner_commit_calls := inner,
        temp_created := true, temp_deleted := true }
    else if env.final_read_raises then
      { SquashOutcome.base with
        exception := true, summarizer_called := true,
        editor_ran := true, editor_ran_via_shell := via_shell,
        inner_commit_calls := inner, temp_created := true, temp_deleted := false }
    else
      { SquashOutcome.base with
        summarizer_called := true, editor_ran := true,
        editor_ran_via_shell := via_shell, inner_commit_calls := inner,
        reset_calls := [env.merge_base],
        commit_m_calls := [py_strip env.edited_content],
        temp_created := true, temp_deleted := true,
        upstream_warning := env.has_upstream }

/-- `squash_branch()` (`squash.py` lines 62-181).  In source order: the
repository check, the staged/unstaged queries, the token check with its
`sys.exit(1)`, then the working-tree branch of lines 87-108 — staged
changes are committed first through `commit_with_edit_template` (whose
abort cancels the squash), while unstaged-only changes are a refusal —
and finally the summarize/review/reset steps of `squash_after_tree`. -/
def squash_branch (hash : String → Nat) (env : SquashEnv) : SquashOutcome :=
  if !env.in_git_repo then
    SquashOutcome.base
  else if !truthy_str env.token then
    { SquashOutcome.base with
      exited := true }
  else if env.staged_files ≠ "" then
    if py_strip env.staged_diff = "" then
      SquashOutcome.base
    else
      let c := commit_with_edit_template hash env.generated_msg env.commit_env
      match c.result with
      | Option.none =>
          { SquashOutcome.base with
            exception := true,
            inner_commit_calls := c.git_commit_calls }
      | some r =>
          if r ≠ 0 then
            { SquashOutcome.base with
            inner_commit_calls := c.git_commit_calls }
          else
            squash_after_tree hash env c.git_commit_calls
  else if env.unstaged_files ≠ "" then
    SquashOutcome.base
  else
    squash_after_tree hash env []

/-! ### `llm.py`: Ollama server lifecycle -/

/-- The external circumstances of one `_start_ollama_server_if_needed`
call (`llm.py` lines 531-569): whether a server already answers the
health check, whether the configured host is loopback, whether
`subprocess.Popen` succeeds, whether the spawned process dies before
becoming healthy, and whether the health check passes before the 8 s
deadline. -/
structure OllamaWorld where
  preexisting_running : Bool
  host_loopback : Bool
  spawn_succeeds : Bool
  exits_early : Bool
  becomes_healthy : Bool
deriving DecidableEq

/-- The Ollama-related state of a `CommitMessageGenerator`:
`self._ollama_proc` (`Option.none` when no handle, otherwise whether the
process is still alive) and `self._ollama_started_by_us`. -/
structure GenState where
  proc_alive : Option Bool
  started_by_us : Bool
deriving DecidableEq

/-- The state set by `CommitMessageGenerator.__init__` (`llm.py`
lines 131-133): no process handle, flag false. -/
def init_gen_state : GenState :=
  { proc_alive := Option.none, started_by_us := false }

/-- `_start_ollama_server_if_needed` (`llm.py` lines 531-569).  Returns
the new generator state and the message of the `ValueError` raised, if
any.  The flag `_ollama_started_by_us` is set only after a successful
`Popen`; it stays set when the subsequent polling fails, so a process we
spawned is still reaped on teardown after a startup timeout. -/
def start_ollama_server_if_needed (w : OllamaWorld) (s : GenState) :
    GenState × Option String :=
  if w.preexisting_running then (s, Option.none)
  else if !w.host_loopback then (s, some "Failed to reach Ollama")
  else if s.proc_alive = some true then
    -- a live process handle already exists: skip the spawn, poll only
    if w.exits_early then ({ s with proc_alive := some false }, some "Ollama failed to start")
    else if w.becomes_healthy then (s, Option.none)
    else (s, some "Timed out waiting for Ollama to start")
  else if !w.spawn_succeeds then
    -- Popen raised OSError: ValueError, flag untouched
    (s, some "Failed to start Ollama server")
  else
    let s1 : GenState := { proc_alive := some true, started_by_us := true }
    if w.exits_early then ({ s1 with proc_alive := some false }, some "Ollama failed to start")
    else if w.becomes_healthy then (s1, Option.none)
    else (s1, some "Timed out waiting for Ollama to start")

/-- `_stop_ollama_server_if_started_by_us` (`llm.py` lines 571-598),
called by `CommitMessageGenerator.close` (lines 135-137).  Returns the
new state and whether a kill signal was actually delivered.  Nothing is
signalled unless the flag is set, a process handle exists, and the
process is still alive. -/
def stop_ollama_server_if_started_by_us (s : GenState) : GenState × Bool :=
  if !s.started_by_us then (s, false)
  else
    match s.proc_alive with
    | Option.none => (s, false)
    | some false => (s, false)
    | some true => ({ s with proc_alive := some false }, true)

/-! ### `llm.py`: provider HTTP calls and dispatch -/

/-- A Python exception escaping a provider call. -/
inductive PyError where
  | http_status : Nat → PyError
  | key_missing : String → PyError
  | transport : PyError
deriving DecidableEq

/-- The observable part of an HTTP response for the provider calls: the
status code, whether the decoded JSON body has the success shape the
code indexes into, and the text content found there. -/
structure HttpResponse where
  status : Nat
  has_expected_shape : Bool
  content : String
deriving DecidableEq

/-- `requests.Response.raise_for_status()`: raises an `HTTPError`
carrying the status code for 4xx and 5xx responses. -/
def raise_for_status (r : HttpResponse) : Except PyError Unit :=
  if 400 ≤ r.status ∧ r.status < 600 then Except.error (PyError.http_status r.status)
  else Except.ok ()

/-- `generate_anthropic` (`llm.py` lines 324-361): a single
`requests.post` (a transport failure propagates as `transport`),
then `response.raise_for_status()`, then indexing
`response.json()["content"][0]["text"]` and `.strip()`. -/
def generate_anthropic : Option HttpResponse → Except PyError String
  | Option.none => Except.error PyError.transport
  | some r =>
    match raise_for_status r with
    | Except.error e => Except.error e
    | Except.ok _ =>
        if r.has_expected_shape then Except.ok (py_strip r.content)
        else Except.error (PyError.key_missing "content")

/-- `generate_gemini` (`llm.py` lines 384-419): `requests.post`, then
`raise_for_status`, then indexing
`response.json()["candidates"][0]["content"]["parts"][0]["text"]`. -/
def generate_gemini : Option HttpResponse → Except PyError String
  | Option.none => Except.error PyError.transport
  | some r =>
    match raise_for_status r with
    | Except.error e => Except.error e
    | Except.ok _ =>
        if r.has_expected_shape then Except.ok (py_strip r.content)
        else Except.error (PyError.key_missing "candidates")

/-- `generate_groq` (`llm.py` lines 421-468): `requests.post`, then
`raise_for_status`, then indexing
`response.json()["choices"][0]["message"]["content"]`. -/
def generate_groq : Option HttpResponse → Except PyError String
  | Option.none => Except.error PyError.transport
  | some r =>
    match raise_for_status r with
    | Except.error e => Except.error e
    | Except.ok _ =>
        if r.has_expected_shape then Except.ok (py_strip r.content)
        else Except.error (PyError.key_missing "choices")

/-- `generate_mistral` (`llm.py` lines 470-507): `requests.post`
followed directly by `response.json()["choices"][0]["message"]["content"]`
— there is no `raise_for_status` call, so the HTTP status code is never
inspected. -/
def generate_mistral : Option HttpResponse → Except PyError String
  | Option.none => Except.error PyError.transport
  | some r =>
      if r.has_expected_shape then Except.ok (py_strip r.content)
      else Except.error (PyError.key_missing "choices")

/-- `generate_xai` (`llm.py` lines 716-752): `requests.post` followed
directly by `response.json()["choices"][0]["message"]["content"]` —
like `generate_mistral`, there is no `raise_for_status` call. -/
def generate_xai : Option HttpResponse → Except PyError String
  | Option.none => Except.error PyError.transport
  | some r =>
      if r.has_expected_shape then Except.ok (py_strip r.content)
      else Except.error (PyError.key_missing "choices")

/-- One provider function of the `model_dispatch` table. -/
inductive ProviderTag where
  | openai | gemini | anthropic | groq | xai | mistral | deepseek | ollama
deriving DecidableEq

/-- The `model_dispatch` dict of `_dispatch_generate` (`llm.py`
lines 300-309), in source order. -/
def model_dispatch : List (String × ProviderTag) :=
  [("openai", ProviderTag.openai), ("gemini", ProviderTag.gemini),
   ("anthropic", ProviderTag.anthropic), ("groq", ProviderTag.groq),
   ("xai", ProviderTag.xai), ("mistral", ProviderTag.mistral),
   ("deepseek", ProviderTag.deepseek), ("ollama", ProviderTag.ollama)]

/-- `_dispatch_generate` (`llm.py` lines 294-318): a name not in
`model_dispatch` raises `ValueError` before any provider function is
touched; a known name invokes exactly the mapped provider function,
which `Except.ok` records. -/
def dispatch_generate (default_model : String) : Except String ProviderTag :=
  match List.lookup default_model model_dispatch with
  | Option.none => Except.error ("Unknown model type: " ++ default_model)
  | some f => Except.ok f

/-! ### Concrete inputs used by witnesses and counterexamples -/

/-- A configuration whose `default` names a provider (`openai`) that has
no provider block, while the one provider block present (`anthropic`) is
well-formed. -/
def cfg_default_mismatch : Config :=
  [("default", CVal.str "openai"),
   ("anthropic", CVal.dict [("model", CLeaf.str "claude-haiku-4-5"),
                            ("temperature", CLeaf.num 0)])]

/-- An editor environment in which `git var GIT_EDITOR` answers with a
non-empty command. -/
def editor_env_example : EditorEnv :=
  { git_var_editor := some "nano -w", env_git_editor := Option.none,
    env_visual := Option.none, env_editor := Option.none,
    which_vi := some "/usr/bin/vi", which_nano := Option.none }

/-- A commit-protocol run in which the editor is found, exits zero, and
saves different content. -/
def commit_env_saved : CommitEnv :=
  { editor_found := true, editor_launch_raises := false, editor_exit := 0,
    edited_content := "ab", git_commit_exit := 0 }

/-- A squash run on a clean tree that goes through every step and
succeeds: the summary is `"s"` and the user saves `"ss"`, which differs
under the `String.length` hash used in the concrete theorems. -/
def squash_env_ok : SquashEnv :=
  { in_git_repo := true, staged_files := "", unstaged_files := "",
    token := some "t", staged_diff := "", generated_msg := "",
    commit_env := commit_env_saved, merge_base := "base",
    commit_log := "log", summary := "s", editor_found := true,
    editor_exit := 0, edited_content := "ss", final_read_raises := false,
    has_upstream := true }

/-- Like `squash_env_ok`, but reading the final message back raises
(for example the editor saved bytes that are not valid UTF-8). -/
def squash_env_read_failure : SquashEnv :=
  { squash_env_ok with final_read_raises := true }

/-- Like `squash_env_ok`, but `shutil.which` cannot locate the editor
executable. -/
def squash_env_shell_editor : SquashEnv :=
  { squash_env_ok with editor_found := false }

/-- A repository with unstaged changes and nothing staged. -/
def squash_env_unstaged : SquashEnv :=
  { squash_env_ok with unstaged_files := "file.py" }

/-- A world in which an Ollama server is already answering the health
check before `_start_ollama_server_if_needed` runs. -/
def ollama_world_preexisting : OllamaWorld :=
  { preexisting_running := true, host_loopback := true,
    spawn_succeeds := true, exits_early := false, becomes_healthy := true }

/-- An HTTP failure response whose JSON body nevertheless carries the
fields the success path indexes into. -/
def http_response_500 : HttpResponse :=
  { status := 500, has_expected_shape := true, content := "  msg  " }

/-! ## Helper lemmas -/

/-- A key is absent from an association list exactly when it is not
among the mapped first components. -/
theorem lookup_eq_none_iff_contains {α : Type} (name : String) (l : List (String × α)) :
    List.lookup name l = Option.none ↔ (l.map Prod.fst).contains name = false := by
  induction l with
  | nil => simp [List.lookup]
  | cons p rest ih =>
    simp only [List.lookup, List.map_cons, List.contains_cons]
    by_cases h : name = p.1
    · simp [h]
    · simp [h, ih, beq_false_of_ne h, Ne.symm h]

/-- A successful association-list lookup comes from an entry of the list. -/
theorem mem_of_lookup_eq_some {α : Type} :
    ∀ {l : List (String × α)} {k : String} {v : α},
      List.lookup k l = some v → (k, v) ∈ l := by
  intro l
  induction l with
  | nil => intro k v h; simp [List.lookup] at h
  | cons p rest ih =>
    intro k v h
    rw [List.lookup] at h
    by_cases hk : k = p.1
    · have hb : (k == p.1) = true := by simp [hk]
      rw [hb] at h
      simp at h
      subst h
      simp [hk]
    · have hb : (k == p.1) = false := by simp [hk]
      rw [hb] at h
      exact List.mem_cons_of_mem _ (ih h)

/-- One step of the provider-block loop: the head provider must pass
`provider_block_ok` and the rest of the loop must succeed. -/
theorem check_provider_blocks_cons (config : Config) (p : String) (rest : List String) :
    check_provider_blocks config (p :: rest) = Except.ok () ↔
      provider_block_ok (List.lookup p config) = true ∧
      check_provider_blocks config rest = Except.ok () := by
  cases hl : List.lookup p config with
  | none => simp [check_provider_blocks, hl, provider_block_ok]
  | some v =>
    cases v with
    | dict block =>
      cases hm : (block.map Prod.fst).contains "model" <;>
        cases hc : (block.map Prod.fst).contains "temperature" <;>
          (simp only [check_provider_blocks, hl, provider_block_ok]; rw [hm, hc]; simp)
    | str s => simp [check_provider_blocks, hl, provider_block_ok]
    | num n => simp [check_provider_blocks, hl, provider_block_ok]
    | bool b => simp [check_provider_blocks, hl, provider_block_ok]
    | null => simp [check_provider_blocks, hl, provider_block_ok]

/-- The provider-block loop succeeds exactly when every listed provider
has a well-formed block. -/
theorem check_provider_blocks_ok_iff (config : Config) (l : List String) :
    check_provider_blocks config l = Except.ok () ↔
      ∀ p ∈ l, provider_block_ok (List.lookup p config) = true := by
  induction l with
  | nil => simp [check_provider_blocks]
  | cons p rest ih =>
    rw [check_provider_blocks_cons, List.forall_mem_cons, ih]

/-- No key of `LANGUAGE_MAP` normalizes to the reserved string
`"none"`. -/
theorem language_map_keys_not_none :
    ∀ p ∈ LANGUAGE_MAP, py_lower (py_strip p.1) ≠ "none" := by decide

/-- In the squash review step, a non-exceptional run that created the
temp file also deleted it. -/
theorem squash_after_tree_cleanup (hash : String → Nat) (env : SquashEnv) (inner : List String)
    (h : (squash_after_tree hash env inner).exception = false)
    (hc : (squash_after_tree hash env inner).temp_created = true) :
    (squash_after_tree hash env inner).temp_deleted = true := by
  simp only [squash_after_tree] at h hc ⊢
  split_ifs at h hc ⊢ <;> simp_all [SquashOutcome.base]

/-- In the squash review step, when the editor executable was not found
on PATH any editor run happened through the shell. -/
theorem squash_after_tree_shell (hash : String → Nat) (env : SquashEnv) (inner : List String)
    (hef : env.editor_found = false)
    (hran : (squash_after_tree hash env inner).editor_ran = true) :
    (squash_after_tree hash env inner).editor_ran_via_shell = true := by
  simp only [squash_after_tree] at hran ⊢
  split_ifs at hran ⊢ <;> simp_all [SquashOutcome.base]

/-- Every `squash_branch` run either reaches the review step
(`squash_after_tree`) or stops beforehand with nothing observable done. -/
theorem squash_branch_shape (hash : String → Nat) (env : SquashEnv) :
    (∃ inner, squash_branch hash env = squash_after_tree hash env inner) ∨
    ((squash_branch hash env).temp_created = false ∧
     (squash_branch hash env).editor_ran = false ∧
     (squash_branch hash env).summarizer_called = false ∧
     (squash_branch hash env).reset_calls = [] ∧
     (squash_branch hash env).commit_m_calls = []) := by
  simp only [squash_branch]
  split_ifs <;>
    first
      | (right; exact ⟨rfl, rfl, rfl, rfl, rfl⟩)
      | (left; exact ⟨[], rfl⟩)
      | skip
  rcases hr : (commit_with_edit_template hash env.generated_msg env.commit_env).result with _ | r
  · simp only [hr]
    right
    exact ⟨rfl, rfl, rfl, rfl, rfl⟩
  · simp only [hr]
    split_ifs
    · right; exact ⟨rfl, rfl, rfl, rfl, rfl⟩
    · left; exact ⟨_, rfl⟩

/-! ## Claim theorems -/

/-- Claim C1: in `commit_with_edit_template`, once the editor ran and
exited with status zero, the decision is determined solely by
content-hash equality — equal hashes abort with the non-zero result `1`
and invoke no `git commit`, while differing hashes invoke `git commit`
with exactly the current file content as the message. -/
theorem commit_decision_by_hash (hash : String → Nat) (msg : String) (env : CommitEnv)
    (hfound : env.editor_found = true) (hraise : env.editor_launch_raises = false)
    (hexit : env.editor_exit = 0) :
    (hash env.edited_content = hash msg →
       (commit_with_edit_template hash msg env).result = some 1 ∧
       (commit_with_edit_template hash msg env).git_commit_calls = []) ∧
    (hash env.edited_content ≠ hash msg →
       (commit_with_edit_template hash msg env).git_commit_calls = [env.edited_content]) := by
  simp only [commit_with_edit_template, hfound, hraise, hexit]
  constructor
  · intro h
    simp [h]
  · intro h
    simp [h]
    split_ifs <;> rfl

/-- Witness for claim C1 at a concrete run: message `"a"`, saved content
`"ab"`, hash `String.length` — the hashes differ, so `git commit -F` is
invoked with the saved content. -/
theorem commit_decision_by_hash_witness :
    (commit_with_edit_template String.length "a" commit_env_saved).git_commit_calls = ["ab"] :=
  (commit_decision_by_hash String.length "a" commit_env_saved rfl rfl rfl).2 (by decide)

/-- Claim C2, counterexample: a squash review run in which the editor
exits zero and saves changed content, but reading the final message back
raises — the run ends exceptionally with the temp file created and not
deleted, so not every exit path of the squash user-review step deletes
the temp file. -/
theorem squash_temp_leak_on_read_failure :
    (squash_branch String.length squash_env_read_failure).temp_created = true ∧
    (squash_branch String.length squash_env_read_failure).temp_deleted = false ∧
    (squash_branch String.length squash_env_read_failure).exception = true := by
  decide

/-- Claim C2 (amended): `commit_with_edit_template` deletes its temp file
on every exit path, including exceptional ones (its `try/finally`);
`squash_branch` deletes the review temp file on every non-exceptional
exit path, but an exception raised between creating and unlinking the
file (such as the final read failing) escapes without deleting it. -/
theorem temp_file_cleanup (hash : String → Nat) (msg : String) (cenv : CommitEnv)
    (senv : SquashEnv) (hnoexc : (squash_branch hash senv).exception = false) :
    (commit_with_edit_template hash msg cenv).temp_deleted = true ∧
    ((squash_branch hash senv).temp_created = true →
       (squash_branch hash senv).temp_deleted = true) := by
  constructor
  · simp only [commit_with_edit_template]
    split_ifs <;> rfl
  · intro hc
    rcases squash_branch_shape hash senv with ⟨inner, heq⟩ | ⟨h, -⟩
    · rw [heq] at hnoexc hc ⊢
      exact squash_after_tree_cleanup hash senv inner hnoexc hc
    · rw [hc] at h
      cases h

/-- Witness for the amended claim C2 at a concrete commit run and a
concrete non-exceptional squash run. -/
theorem temp_file_cleanup_witness :
    (commit_with_edit_template String.length "a" commit_env_saved).temp_deleted = true ∧
    (squash_branch String.length squash_env_ok).temp_deleted = true := by
  have h := temp_file_cleanup String.length "a" commit_env_saved squash_env_ok (by decide)
  exact ⟨h.1, h.2 (by decide)⟩

/-- Claim C3, counterexample: `_validate_config_keys` accepts a
configuration whose `default` value names a provider with no provider
block — the check that some provider block matches `default` is never
performed. -/
theorem validate_accepts_default_without_block :
    validate_config_keys cfg_default_mismatch = Except.ok () ∧
    List.lookup "default" cfg_default_mismatch = some (CVal.str "openai") ∧
    List.lookup "openai" cfg_default_mismatch = Option.none := by
  exact ⟨rfl, rfl, rfl⟩

/-- Claim C3 (amended): `_validate_config_keys` accepts a configuration
exactly when it has no unknown top-level key, at least one provider
block is present, and every provider block is a mapping carrying both
`model` and `temperature`; no relationship between `default` and the
provider blocks is checked. -/
theorem validate_config_keys_ok_iff (config : Config) :
    validate_config_keys config = Except.ok () ↔
      ((config.map Prod.fst).filter
         (fun k => !allowed_global_keys.contains k && !allowed_provider_keys.contains k)) = [] ∧
      ((config.map Prod.fst).filter (fun k => allowed_provider_keys.contains k)) ≠ [] ∧
      ∀ p ∈ (config.map Prod.fst).filter (fun k => allowed_provider_keys.contains k),
        provider_block_ok (List.lookup p config) = true := by
  simp only [validate_config_keys]
  split_ifs with h1 h2
  · constructor
    · intro h; cases h
    · rintro ⟨ha, -, -⟩; exact absurd ha h1
  · constructor
    · intro h; cases h
    · rintro ⟨-, hb, -⟩; exact absurd h2 hb
  · rw [check_provider_blocks_ok_iff]
    push_neg at h1
    constructor
    · intro h; exact ⟨h1, h2, h⟩
    · rintro ⟨-, -, h⟩; exact h

/-- Witness for the amended claim C3: the acceptance characterization
evaluated at the concrete mismatching configuration. -/
theorem validate_config_keys_ok_iff_witness :
    validate_config_keys cfg_default_mismatch = Except.ok () :=
  (validate_config_keys_ok_iff cfg_default_mismatch).mpr ⟨by decide, by decide, by decide⟩

/-- Claim C4, counterexample: `generate_mistral` and `generate_xai`
never call `raise_for_status`, so a response with a failing HTTP status
whose body happens to parse is treated as success — the provider
silently proceeds past the failed HTTP response. -/
theorem mistral_xai_ignore_http_status :
    generate_mistral (some http_response_500) = Except.ok "msg" ∧
    generate_xai (some http_response_500) = Except.ok "msg" ∧
    400 ≤ http_response_500.status := by
  exact ⟨rfl, rfl, by decide⟩

/-- Claim C4 (amended): `generate_anthropic`, `generate_gemini` and
`generate_groq` propagate every 4xx/5xx response as an error preserving
the raw status, and transport failures propagate for all five
direct-HTTP providers; `generate_mistral` and `generate_xai`, however,
never inspect the HTTP status, so no run of them ever surfaces an error
carrying the status code. -/
theorem provider_http_error_handling :
    (∀ r : HttpResponse, 400 ≤ r.status → r.status < 600 →
       generate_anthropic (some r) = Except.error (PyError.http_status r.status) ∧
       generate_gemini (some r) = Except.error (PyError.http_status r.status) ∧
       generate_groq (some r) = Except.error (PyError.http_status r.status)) ∧
    (generate_anthropic Option.none = Except.error PyError.transport ∧
     generate_gemini Option.none = Except.error PyError.transport ∧
     generate_groq Option.none = Except.error PyError.transport ∧
     generate_mistral Option.none = Except.error PyError.transport ∧
     generate_xai Option.none = Except.error PyError.transport) ∧
    (∀ (r : HttpResponse) (st : Nat),
       generate_mistral (some r) ≠ Except.error (PyError.http_status st) ∧
       generate_xai (some r) ≠ Except.error (PyError.http_status st)) := by
  refine ⟨?_, ⟨rfl, rfl, rfl, rfl, rfl⟩, ?_⟩
  · intro r h4 h6
    have hrs : raise_for_status r = Except.error (PyError.http_status r.status) := by
      simp [raise_for_status, h4, h6]
    refine ⟨?_, ?_, ?_⟩ <;> simp [generate_anthropic, generate_gemini, generate_groq, hrs]
  · intro r st
    constructor <;>
      (simp only [generate_mistral, generate_xai]; split_ifs <;> simp)

/-- Witness for the amended claim C4: a 401 response to the Anthropic
call propagates as an error carrying status 401. -/
theorem provider_http_error_handling_witness :
    generate_anthropic (some { status := 401, has_expected_shape := false, content := "" }) =
      Except.error (PyError.http_status 401) :=
  (provider_http_error_handling.1
      { status := 401, has_expected_shape := false, content := "" }
      (by decide) (by decide)).1

/-- Claim C5: over the modelled Ollama lifecycle, teardown kills the
server process if and only if this generator instance started it — a
pre-existing server is never signalled, a kill implies the
started-by-us flag, a flagged process is no longer alive after `close`,
and every spawn sets the flag. -/
theorem ollama_kill_iff_started (w : OllamaWorld) :
    (w.preexisting_running = true →
       (stop_ollama_server_if_started_by_us
          (start_ollama_server_if_needed w init_gen_state).1).2 = false) ∧
    ((stop_ollama_server_if_started_by_us
        (start_ollama_server_if_needed w init_gen_state).1).2 = true →
       (start_ollama_server_if_needed w init_gen_state).1.started_by_us = true) ∧
    ((start_ollama_server_if_needed w init_gen_state).1.started_by_us = true →
       (stop_ollama_server_if_started_by_us
          (start_ollama_server_if_needed w init_gen_state).1).1.proc_alive ≠ some true) ∧
    (w.preexisting_running = false → w.host_loopback = true → w.spawn_succeeds = true →
       (start_ollama_server_if_needed w init_gen_state).1.started_by_us = true) := by
  rcases w with ⟨pre, loop, sp, ex, bh⟩
  cases pre <;> cases loop <;> cases sp <;> cases ex <;> cases bh <;> decide

/-- Witness for claim C5: with a pre-existing server, teardown delivers
no kill signal. -/
theorem ollama_kill_iff_started_witness :
    (stop_ollama_server_if_started_by_us
       (start_ollama_server_if_needed ollama_world_preexisting init_gen_state).1).2 = false :=
  (ollama_kill_iff_started ollama_world_preexisting).1 rfl

/-- Claim C6: with unstaged changes present and nothing staged,
`squash_branch` refuses to proceed — the history summarizer is not
called and no reset or commit of any kind is performed. -/
theorem squash_refuses_unstaged (hash : String → Nat) (env : SquashEnv)
    (hstaged : env.staged_files = "") (hunstaged : env.unstaged_files ≠ "") :
    (squash_branch hash env).summarizer_called = false ∧
    (squash_branch hash env).inner_commit_calls = [] ∧
    (squash_branch hash env).reset_calls = [] ∧
    (squash_branch hash env).commit_m_calls = [] := by
  unfold squash_branch
  split_ifs with h1 h2 h3 h4 <;> simp_all [SquashOutcome.base]

/-- Witness for claim C6 at a concrete repository state with
`file.py` unstaged and nothing staged. -/
theorem squash_refuses_unstaged_witness :
    (squash_branch String.length squash_env_unstaged).summarizer_called = false ∧
    (squash_branch String.length squash_env_unstaged).inner_commit_calls = [] ∧
    (squash_branch String.length squash_env_unstaged).reset_calls = [] ∧
    (squash_branch String.length squash_env_unstaged).commit_m_calls = [] :=
  squash_refuses_unstaged String.length squash_env_unstaged rfl (by decide)

/-- Claim C7, counterexample: in the squash user-review step, when the
editor executable cannot be located on PATH the operation does not fail
— the editor command is run through the shell and the squash proceeds
all the way to the reset and commit. -/
theorem squash_editor_shell_fallback :
    squash_env_shell_editor.editor_found = false ∧
    (squash_branch String.length squash_env_shell_editor).editor_ran = true ∧
    (squash_branch String.length squash_env_shell_editor).editor_ran_via_shell = true ∧
    (squash_branch String.length squash_env_shell_editor).reset_calls = ["base"] ∧
    (squash_branch String.length squash_env_shell_editor).commit_m_calls = ["ss"] := by
  decide

/-- Claim C7 (amended): the editor command is resolved from git's
configuration with environment fallbacks in both flows; the commit
protocol (`commit_with_edit_template`) fails without editing or
committing when the resolved executable cannot be located on PATH, but
the squash user-review step instead runs the editor command through the
shell and proceeds. -/
theorem editor_resolution_and_missing_editor (e : EditorEnv) (s : String)
    (hash : String → Nat) (msg : String) (cenv : CommitEnv) (senv : SquashEnv) :
    (e.git_var_editor = some s → s ≠ "" → get_git_editor e = s) ∧
    (e.git_var_editor = Option.none → get_git_editor e = get_git_editor_fallback e) ∧
    (cenv.editor_found = false →
       (commit_with_edit_template hash msg cenv).result = some 1 ∧
       (commit_with_edit_template hash msg cenv).editor_ran = false ∧
       (commit_with_edit_template hash msg cenv).git_commit_calls = []) ∧
    (senv.editor_found = false → (squash_branch hash senv).editor_ran = true →
       (squash_branch hash senv).editor_ran_via_shell = true) := by
  refine ⟨?_, ?_, ?_, ?_⟩
  · intro hg hs
    simp [get_git_editor, hg, hs]
  · intro hg
    simp [get_git_editor, hg]
  · intro hef
    refine ⟨?_, ?_, ?_⟩ <;> simp [commit_with_edit_template, hef]
  · intro hef hran
    rcases squash_branch_shape hash senv with ⟨inner, heq⟩ | ⟨-, h, -⟩
    · rw [heq] at hran ⊢
      exact squash_after_tree_shell hash senv inner hef hran
    · rw [hran] at h
      cases h

/-- Witness for the amended claim C7: the git-configured editor wins
resolution, and the concrete shell-fallback squash run went through the
shell. -/
theorem editor_resolution_and_missing_editor_witness :
    get_git_editor editor_env_example = "nano -w" ∧
    (squash_branch String.length squash_env_shell_editor).editor_ran_via_shell = true := by
  have h := editor_resolution_and_missing_editor editor_env_example "nano -w"
    String.length "a" commit_env_saved squash_env_shell_editor
  exact ⟨h.1 rfl (by decide), h.2.2.2 rfl (by decide)⟩

/-- Claim C8: `_dispatch_generate` errors on every provider name outside
the dispatch mapping, invoking no provider function, and succeeds
exactly on the known names, invoking the mapped provider function. -/
theorem dispatch_known_only (name : String) :
    ((model_dispatch.map Prod.fst).contains name = false →
       dispatch_generate name = Except.error ("Unknown model type: " ++ name)) ∧
    ((model_dispatch.map Prod.fst).contains name = true →
       ∃ t, dispatch_generate name = Except.ok t ∧
            List.lookup name model_dispatch = some t) := by
  constructor
  · intro h
    have hn : List.lookup name model_dispatch = Option.none := by
      rw [lookup_eq_none_iff_contains]
      exact h
    simp [dispatch_generate, hn]
  · intro h
    cases hl : List.lookup name model_dispatch with
    | none =>
        rw [lookup_eq_none_iff_contains] at hl
        rw [h] at hl
        cases hl
    | some t => exact ⟨t, by simp [dispatch_generate, hl], rfl⟩

/-- Witness for claim C8: the unknown name `simple` is rejected and the
known name `anthropic` dispatches to its provider function. -/
theorem dispatch_known_only_witness :
    dispatch_generate "simple" = Except.error ("Unknown model type: " ++ "simple") ∧
    ∃ t, dispatch_generate "anthropic" = Except.ok t ∧
         List.lookup "anthropic" model_dispatch = some t :=
  ⟨(dispatch_known_only "simple").1 (by decide),
   (dispatch_known_only "anthropic").2 (by decide)⟩

/-- Claim C9: for every code in `LANGUAGE_MAP`, `_language_instruction`
produces a sentence containing the mapped human-readable name; for every
unknown code that is not the reserved string `none`, the sentence uses
`English`. -/
theorem language_instruction_uses_map :
    (∀ code name, List.lookup code LANGUAGE_MAP = some name →
       ∃ pre post, language_instruction [("language", CVal.str code)] = pre ++ name ++ post) ∧
    (∀ code : String, py_lower (py_strip code) ≠ "none" →
       List.lookup code LANGUAGE_MAP = Option.none →
       ∃ pre post, language_instruction [("language", CVal.str code)] = pre ++ "English" ++ post) := by
  constructor
  · intro code name hl
    have hmem := mem_of_lookup_eq_some hl
    have hnn := language_map_keys_not_none _ hmem
    refine ⟨"Write the commit message in ", ".", ?_⟩
    simp only [language_instruction, List.lookup]
    simp [is_none_string, hnn, language_name, hl]
  · intro code hnn hl
    refine ⟨"Write the commit message in ", ".", ?_⟩
    simp only [language_instruction, List.lookup]
    simp [is_none_string, hnn, language_name, hl]

/-- Witness for claim C9 at the known code `de` and the unknown code
`xx`. -/
theorem language_instruction_uses_map_witness :
    (∃ pre post, language_instruction [("language", CVal.str "de")] = pre ++ "German" ++ post) ∧
    (∃ pre post, language_instruction [("language", CVal.str "xx")] = pre ++ "English" ++ post) :=
  ⟨language_instruction_uses_map.1 "de" "German" (by decide),
   language_instruction_uses_map.2 "xx" (by decide) (by decide)⟩

/-- Claim C10: `_validate_language` distinguishes a missing `language`
key (fall back to `en`) from an explicit null value (disable the
language instruction, returning `none`). -/
theorem validate_language_missing_vs_null (config : Config) (allowed : List String) :
    (List.lookup "language" config = Option.none →
       validate_language config allowed = "en") ∧
    (List.lookup "language" config = some CVal.null →
       validate_language config allowed = "none") := by
  constructor <;> intro h <;> simp [validate_language, h]

/-- Witness for claim C10 at the empty configuration and at a
configuration carrying an explicit null. -/
theorem validate_language_missing_vs_null_witness :
    validate_language ([] : Config) [] = "en" ∧
    validate_language ([("language", CVal.null)] : Config) [] = "none" :=
  ⟨(validate_language_missing_vs_null ([] : Config) []).1 rfl,
   (validate_language_missing_vs_null ([("language", CVal.null)] : Config) []).2 rfl⟩

end GitCai
